import Mathlib

/-!
Verification of the LatentLM training orchestrator (src/LatentLM/debug_hf.py)
against its natural-language specification. The numeric parts of the script
are embedded shallowly over the real numbers; the control flow of the
training-loop body, the checkpoint routine and the Python name resolution of
the module are embedded as explicit traces and environments.
-/

namespace LatentLM

/- ## Latent normalization (debug_hf.py lines 260-268)

Each worker flattens its latent batch, computes the local statistics
scale = 1 / std and bias = -mean, sum-all-reduces the two scalars across the
workers and divides by the world size. A worker is identified by its index
into the list of per-worker flattened batches. -/

/-- Mean over all elements of a flattened batch, as torch mean computes it. -/
noncomputable def mean (xs : List ℝ) : ℝ := xs.sum / xs.length

/-- Unbiased sample variance (denominator n - 1), as torch std computes it. -/
noncomputable def var_unbiased (xs : List ℝ) : ℝ :=
  ((xs.map (fun x => (x - mean xs) ^ 2)).sum) / ((xs.length : ℝ) - 1)

/-- Standard deviation over all elements of a flattened batch. -/
noncomputable def std (xs : List ℝ) : ℝ := Real.sqrt (var_unbiased xs)

/-- Line 261: the local scaling factor of one worker is 1 / std of its batch. -/
noncomputable def local_scaling_factor (xs : List ℝ) : ℝ := 1 / std xs

/-- Line 262: the local bias factor of one worker is the negated mean of its batch. -/
noncomputable def local_bias_factor (xs : List ℝ) : ℝ := -(mean xs)

/-- The sum-all-reduce collective (torch.distributed.all_reduce with ReduceOp.SUM):
every participating worker, whatever its index, receives the sum of the
per-worker local values. -/
noncomputable def all_reduce_sum (locals : List ℝ) (_i : ℕ) : ℝ := locals.sum

/-- dist.get_world_size: the number of participating workers. -/
def world_size (world : List (List ℝ)) : ℕ := world.length

/-- Lines 261-266 as executed by worker i on the first batch: local statistics,
sum-all-reduce of the two scalars, division by the world size. -/
noncomputable def first_call_factors (world : List (List ℝ)) (i : ℕ) : ℝ × ℝ :=
  (all_reduce_sum (world.map local_scaling_factor) i / world_size world,
   all_reduce_sum (world.map local_bias_factor) i / world_size world)

/-- Lines 260-267: when the factors are unset (None) they are computed once via
the distributed first call; afterwards the stored pair is returned unchanged,
whatever the input batch. Returns the pair together with the updated state. -/
noncomputable def observe_or_get (st : Option (ℝ × ℝ)) (world : List (List ℝ)) (i : ℕ) :
    (ℝ × ℝ) × Option (ℝ × ℝ) :=
  match st with
  | some p => (p, some p)
  | none =>
    let p := first_call_factors world i
    (p, some p)

/-- Line 268: clean_images = (clean_images + bias_factor) * scaling_factor,
applied elementwise to the flattened latent batch. -/
noncomputable def normalize_batch (p : ℝ × ℝ) (xs : List ℝ) : List ℝ :=
  xs.map (fun x => (x + p.2) * p.1)

/-- The diffusion target of worker i on one iteration: the latent batch after
the normalization transform of lines 260-268. -/
noncomputable def diffusion_target (st : Option (ℝ × ℝ)) (world : List (List ℝ)) (i : ℕ) :
    List ℝ :=
  normalize_batch (observe_or_get st world i).1 (world.getD i [])

/-- A run of successive normalization calls by worker i, one per iteration,
threading the stored factors; returns the list of returned pairs and the
final state. -/
noncomputable def run_calls (st : Option (ℝ × ℝ)) (worlds : List (List (List ℝ))) (i : ℕ) :
    List (ℝ × ℝ) × Option (ℝ × ℝ) :=
  match worlds with
  | [] => ([], st)
  | w :: ws =>
    let r := observe_or_get st w i
    let rest := run_calls r.2 ws i
    (r.1 :: rest.1, rest.2)

/- ## Checkpoint restore and loop-state initialization (lines 194-218, 246-250) -/

/-- EMA serialized state as stored in the side record (modelled below with the
EMA tracker; the resume path only threads it through). -/
structure EMAStateDict where
  shadow_params : List ℝ
  step_count : ℕ
  max_decay : ℝ
  min_decay : ℝ
  inv_gamma : ℝ
  power : ℝ
  use_ema_warmup : Bool

/-- The side record other_state.pth of a checkpoint (lines 306-311). -/
structure OtherState where
  scaling_factor : ℝ
  bias_factor : ℝ
  steps : ℕ
  ema : Option EMAStateDict

/-- What the resume path can see: the record designated by the checkpoint
argument, when given, and the record reached through the latest pointer file,
when that file exists. -/
structure ResumeEnv where
  checkpoint_arg : Option OtherState
  latest_file : Option OtherState

/-- Lines 194-197: the checkpoint argument takes priority; otherwise the path
stored in the latest pointer file is used, when present. -/
def resolve_checkpoint (env : ResumeEnv) : Option OtherState :=
  match env.checkpoint_arg with
  | some o => some o
  | none => env.latest_file

/-- Lines 199-203: when a checkpoint is resolved, its scaling and bias factors
are read from the side record (and printed). -/
def restored_factors (env : ResumeEnv) : Option (ℝ × ℝ) :=
  (resolve_checkpoint env).map (fun o => (o.scaling_factor, o.bias_factor))

/-- The loop-local training state right before the epoch loop starts. -/
structure LoopInit where
  global_step : ℕ
  scaling_factor : Option ℝ
  bias_factor : Option ℝ

/-- Lines 246-250: global_step, scaling_factor and bias_factor are rebound to
0, None and None unconditionally, after the restore block, whatever the
resume environment contained. -/
def loop_init (_env : ResumeEnv) : LoopInit :=
  { global_step := 0, scaling_factor := none, bias_factor := none }

/-- The normalizer state induced by the loop-local variables: a pair only when
both factors are set. -/
def loop_factors (li : LoopInit) : Option (ℝ × ℝ) :=
  match li.scaling_factor, li.bias_factor with
  | some s, some b => some (s, b)
  | _, _ => none

/-- The concrete resume environment of the checkpoint round-trip scenario:
a checkpoint holding scaling_factor 2, bias_factor -1.5, steps 500. -/
noncomputable def c1_env : ResumeEnv :=
  { checkpoint_arg := some { scaling_factor := 2, bias_factor := -(3 / 2), steps := 500, ema := none },
    latest_file := none }

/-- C3: on the first normalization call each worker computes local
scale = 1 / std and bias = -mean over all elements of its batch, both scalars
are sum-all-reduced and divided by the world size, so every worker ends the
call with the identical pair, equal to the arithmetic mean of the per-worker
local statistics. -/
theorem C3_first_call_global_average (world : List (List ℝ)) (i j : ℕ) :
    first_call_factors world i = first_call_factors world j ∧
    first_call_factors world i =
      (mean (world.map local_scaling_factor), mean (world.map local_bias_factor)) ∧
    (observe_or_get none world i).1 = first_call_factors world i := by
  refine ⟨rfl, ?_, rfl⟩
  simp [first_call_factors, all_reduce_sum, world_size, mean]

/-- Auxiliary: with the factors already set, every later call returns the
stored pair and leaves the state untouched, whatever its inputs. -/
theorem run_calls_frozen (p : ℝ × ℝ) (i : ℕ) :
    ∀ worlds : List (List (List ℝ)),
      run_calls (some p) worlds i = (List.replicate worlds.length p, some p) := by
  intro worlds
  induction worlds with
  | nil => rfl
  | cons w ws ih => simp [run_calls, observe_or_get, ih, List.replicate_succ]

/-- C4: once the pair (scale, bias) is set it is immutable for the rest of the
run: every subsequent normalization call returns the identical pair whatever
its input batch, and every latent batch is transformed elementwise as
(latent + bias) * scale before being used as the diffusion target. -/
theorem C4_frozen_and_applied (p : ℝ × ℝ) (worlds : List (List (List ℝ)))
    (i : ℕ) (w : List (List ℝ)) :
    run_calls (some p) worlds i = (List.replicate worlds.length p, some p) ∧
    diffusion_target (some p) w i = (w.getD i []).map (fun x => (x + p.2) * p.1) := by
  exact ⟨run_calls_frozen p i worlds, rfl⟩

/-- C1: the resume path reads the checkpointed pair (2, -1.5) from the side
record, yet the loop initialization that follows discards it: the state enters
the loop with step 0 and unset factors, so the first normalization call
recomputes statistics from new data (yielding (1, 0) on the batch [1, 0, -1],
not the restored (2, -1.5)) and the global step does not resume at 500. -/
theorem C1_restore_discarded :
    restored_factors c1_env = some (2, -(3 / 2)) ∧
    loop_init c1_env = { global_step := 0, scaling_factor := none, bias_factor := none } ∧
    (observe_or_get (loop_factors (loop_init c1_env)) [[1, 0, -1]] 0).1 ≠ (2, -(3 / 2)) ∧
    (loop_init c1_env).global_step ≠ 500 := by
  refine ⟨rfl, rfl, ?_, by decide⟩
  have hfc : first_call_factors [[1, 0, -1]] 0 = (1, 0) := by
    have hm : mean [(1 : ℝ), 0, -1] = 0 := by
      simp [mean]
    have hv : var_unbiased [(1 : ℝ), 0, -1] = 1 := by
      simp [var_unbiased, hm]
      norm_num
    have hs : std [(1 : ℝ), 0, -1] = 1 := by
      simp [std, hv]
    simp [first_call_factors, all_reduce_sum, world_size,
      local_scaling_factor, local_bias_factor, hs, hm]
  have : (observe_or_get (loop_factors (loop_init c1_env)) [[1, 0, -1]] 0).1 =
      first_call_factors [[1, 0, -1]] 0 := rfl
  rw [this, hfc]
  intro h
  have h1 : (1 : ℝ) = 2 := congrArg Prod.fst h
  norm_num at h1

/- ## EMA tracker and decay schedule

The EMAModel class is imported from models (line 26), a module of this
repository that is not available under src/; the orchestrator configures it at
lines 124-132 with decay = max_decay, min_decay = max_decay,
use_ema_warmup = True, inv_gamma and power. The tracker itself is therefore
modelled from the spec, sections 4.1 and 4.2. -/

/-- Modelled from the spec: the configuration knobs of the EMA tracker
(section 4.2), as EMAModel is not under src/. -/
structure EMAConfig where
  max_decay : ℝ
  min_decay : ℝ
  inv_gamma : ℝ
  power : ℝ
  use_ema_warmup : Bool

/-- Modelled from the spec: DecayScheduler (section 4.1), as EMAModel is not
under src/. With warmup the raw value 1 - (1 + step / inv_gamma) ^ (-power) is
clamped to the interval from min_decay to max_decay; without warmup max_decay
is returned, capped below by the minimum decay floor. -/
noncomputable def get_decay (c : EMAConfig) (step : ℕ) : ℝ :=
  if c.use_ema_warmup then
    max c.min_decay (min (1 - (1 + (step : ℝ) / c.inv_gamma) ^ (-c.power)) c.max_decay)
  else
    max c.min_decay c.max_decay

/-- Modelled from the spec: the EMA tracker state (section 4.2), as EMAModel
is not under src/: shadow values, the internal call counter, and the
configuration knobs. -/
structure EMAModel where
  shadow_params : List ℝ
  step_count : ℕ
  config : EMAConfig

/-- Modelled from the spec: EMATracker.step (section 4.2), as EMAModel is not
under src/. With d the decay at the current call count, each shadow value is
updated as shadow + (1 - d) * (current - shadow) and the counter advances. -/
noncomputable def ema_step (e : EMAModel) (params : List ℝ) : EMAModel :=
  { e with
    shadow_params :=
      List.zipWith (fun sh p => sh + (1 - get_decay e.config e.step_count) * (p - sh))
        e.shadow_params params,
    step_count := e.step_count + 1 }

/-- Modelled from the spec: state_dict serializes shadow values, call counter
and configuration knobs exactly (section 4.2). -/
def state_dict (e : EMAModel) : EMAStateDict :=
  { shadow_params := e.shadow_params, step_count := e.step_count,
    max_decay := e.config.max_decay, min_decay := e.config.min_decay,
    inv_gamma := e.config.inv_gamma, power := e.config.power,
    use_ema_warmup := e.config.use_ema_warmup }

/-- Modelled from the spec: load_state_dict restores shadow values, call
counter and configuration knobs exactly (section 4.2). -/
def load_state_dict (sd : EMAStateDict) : EMAModel :=
  { shadow_params := sd.shadow_params, step_count := sd.step_count,
    config :=
      { max_decay := sd.max_decay, min_decay := sd.min_decay,
        inv_gamma := sd.inv_gamma, power := sd.power,
        use_ema_warmup := sd.use_ema_warmup } }

/-- Lines 124-132: the orchestrator constructs the EMA tracker with
decay = max_decay, min_decay = max_decay, use_ema_warmup = True, and the
configured inv_gamma and power. -/
def orchestrator_ema_config (ema_max_decay ema_inv_gamma ema_power : ℝ) : EMAConfig :=
  { max_decay := ema_max_decay, min_decay := ema_max_decay,
    inv_gamma := ema_inv_gamma, power := ema_power, use_ema_warmup := true }

/-- C5: serializing the EMA state (shadow values, call counter, configuration)
and restoring it reproduces the tracker exactly, so one step after the
round trip produces the same shadow values as one step without it. -/
theorem C5_state_dict_round_trip (e : EMAModel) (params : List ℝ) :
    load_state_dict (state_dict e) = e ∧
    ema_step (load_state_dict (state_dict e)) params = ema_step e params := by
  exact ⟨rfl, rfl⟩

/-- C6 counterexample: with the orchestrator configuration of lines 124-132
(min_decay = max_decay, here the default 0.9999, inv_gamma 1, power 3 / 4,
warmup on) the decay is already the full ceiling 0.9999 at step 0 and is the
same at step 1000000: the schedule is constant, it does not rise from near 0
toward max_decay. -/
theorem C6_counterexample :
    get_decay (orchestrator_ema_config (9999 / 10000) 1 (3 / 4)) 0 = 9999 / 10000 ∧
    get_decay (orchestrator_ema_config (9999 / 10000) 1 (3 / 4)) 1000000 =
      get_decay (orchestrator_ema_config (9999 / 10000) 1 (3 / 4)) 0 ∧
    (1 / 2 : ℝ) < get_decay (orchestrator_ema_config (9999 / 10000) 1 (3 / 4)) 0 := by
  have key : ∀ s : ℕ, get_decay (orchestrator_ema_config (9999 / 10000) 1 (3 / 4)) s
      = 9999 / 10000 := by
    intro s
    simp only [get_decay, orchestrator_ema_config, if_true]
    exact max_eq_left (min_le_right _ _)
  refine ⟨key 0, by rw [key 0, key 1000000], by rw [key 0]; norm_num⟩

/-- C6 (amended): with warmup enabled, a positive inv_gamma, a nonnegative
power and min_decay at most max_decay, the decay schedule is monotonically
non-decreasing and capped by max_decay; under the orchestrator configuration
min_decay = max_decay the clamp moreover makes it constant at max_decay, so it
does not rise from near 0. -/
theorem C6_decay_monotone_capped (c : EMAConfig) (s1 s2 : ℕ)
    (hw : c.use_ema_warmup = true) (hg : 0 < c.inv_gamma) (hp : 0 ≤ c.power)
    (hmd : c.min_decay ≤ c.max_decay) (h12 : s1 < s2) :
    get_decay c s1 ≤ get_decay c s2 ∧ get_decay c s2 ≤ c.max_decay := by
  have hs : (s1 : ℝ) ≤ (s2 : ℝ) := by exact_mod_cast h12.le
  have h1pos : (0 : ℝ) < 1 + (s1 : ℝ) / c.inv_gamma := by positivity
  have h2pos : (0 : ℝ) < 1 + (s2 : ℝ) / c.inv_gamma := by positivity
  have hxy : 1 + (s1 : ℝ) / c.inv_gamma ≤ 1 + (s2 : ℝ) / c.inv_gamma := by gcongr
  have hraw : 1 - (1 + (s1 : ℝ) / c.inv_gamma) ^ (-c.power)
      ≤ 1 - (1 + (s2 : ℝ) / c.inv_gamma) ^ (-c.power) := by
    have hpow : (1 + (s1 : ℝ) / c.inv_gamma) ^ c.power
        ≤ (1 + (s2 : ℝ) / c.inv_gamma) ^ c.power :=
      Real.rpow_le_rpow h1pos.le hxy hp
    have hppos : 0 < (1 + (s1 : ℝ) / c.inv_gamma) ^ c.power :=
      Real.rpow_pos_of_pos h1pos _
    have hinv : ((1 + (s2 : ℝ) / c.inv_gamma) ^ c.power)⁻¹
        ≤ ((1 + (s1 : ℝ) / c.inv_gamma) ^ c.power)⁻¹ :=
      inv_anti₀ hppos hpow
    rw [Real.rpow_neg h1pos.le, Real.rpow_neg h2pos.le]
    linarith
  constructor
  · simp only [get_decay, hw, if_true]
    exact max_le_max le_rfl (min_le_min hraw le_rfl)
  · simp only [get_decay, hw, if_true]
    exact max_le hmd (min_le_right _ _)

/-- A concrete warmup configuration used to witness the amended C6. -/
noncomputable def c6_witness_config : EMAConfig :=
  { max_decay := 1 / 2, min_decay := 0, inv_gamma := 1, power := 1, use_ema_warmup := true }

/-- Witness for C6 (amended) at a concrete configuration and step pair. -/
theorem C6_decay_monotone_capped_witness :
    get_decay c6_witness_config 0 ≤ get_decay c6_witness_config 3 ∧
    get_decay c6_witness_config 3 ≤ c6_witness_config.max_decay :=
  C6_decay_monotone_capped c6_witness_config 0 3 rfl (by norm_num [c6_witness_config])
    (by norm_num [c6_witness_config]) (by norm_num [c6_witness_config]) (by norm_num)

/- ## Training-loop body (lines 256-316)

The Transformer branch of the loop body: encode, sample, normalize, draw the
starting noise, compute the conditioning once, run the reverse-diffusion loop
over the scheduler timesteps, compute the MSE loss, print it, and call exit,
which raises SystemExit and terminates the process; everything from
accelerator.backward at line 284 onward is unreachable. The body is embedded
both as an event trace and, for the rollout, as a recursive function. -/

/-- The observable actions of one pass through the loop body, in source
order. The constructors after exit_proc name the actions that occur later in
the source text (lines 284-316). -/
inductive Event where
  | encode | sample | observe_norm | transform_latent | init_noise | cond_once
  | predict | sched_step | compute_loss | print_loss | exit_proc
  | backward | inc_global_step | ema_update | log_check | ckpt_check
  deriving DecidableEq

/-- The reverse-diffusion loop of lines 276-278: per timestep, one predictor
call (forward_diffusion) followed by one scheduler step. -/
def rollout_events (ts : List ℕ) : List Event :=
  ts.flatMap (fun _ => [Event.predict, Event.sched_step])

/-- The full event trace of one pass through the loop body with a Transformer
model (lines 256-281): the trace ends at the exit call of line 281. -/
def step_body_events (ts : List ℕ) : List Event :=
  [Event.encode, Event.sample, Event.observe_norm, Event.transform_latent,
    Event.init_noise, Event.cond_once]
    ++ rollout_events ts
    ++ [Event.compute_loss, Event.print_loss, Event.exit_proc]

/-- One predictor invocation inside the rollout: the timestep it is called at
and the conditioning tensor it is passed. -/
structure PredCall (C : Type) where
  timestep : ℕ
  condition : C
  deriving DecidableEq

/-- Lines 273-278 as a function: fd is forward_diffusion, ss is the scheduler
step; per timestep the predictor output is computed first and the scheduler
then updates the image. Returns the final image and the predictor calls made. -/
def rollout_aux {C : Type} (fd : List ℝ → ℕ → C → List ℝ)
    (ss : List ℝ → ℕ → List ℝ → List ℝ) (cond : C) :
    List ℕ → List ℝ → List ℝ × List (PredCall C)
  | [], img => (img, [])
  | t :: ts, img =>
    ((rollout_aux fd ss cond ts (ss (fd img t cond) t img)).1,
      PredCall.mk t cond :: (rollout_aux fd ss cond ts (ss (fd img t cond) t img)).2)

/-- The image produced by the reverse-diffusion loop. -/
def rollout {C : Type} (fd : List ℝ → ℕ → C → List ℝ)
    (ss : List ℝ → ℕ → List ℝ → List ℝ) (cond : C) (ts : List ℕ) (img : List ℝ) : List ℝ :=
  (rollout_aux fd ss cond ts img).1

/-- The sequence of predictor calls made by the reverse-diffusion loop. -/
def rollout_calls {C : Type} (fd : List ℝ → ℕ → C → List ℝ)
    (ss : List ℝ → ℕ → List ℝ → List ℝ) (cond : C) (ts : List ℕ) (img : List ℝ) :
    List (PredCall C) :=
  (rollout_aux fd ss cond ts img).2

/-- Line 273: torch.randn_like draws a fresh noise tensor with one sampled
value per element of its argument, so of the same shape. -/
def randn_like (x : List ℝ) (g : ℕ → ℝ) : List ℝ :=
  (List.range x.length).map g

/-- Auxiliary: the rollout makes exactly one predictor call per timestep, in
schedule order, always passing the same precomputed conditioning. -/
theorem rollout_calls_eq {C : Type} (fd : List ℝ → ℕ → C → List ℝ)
    (ss : List ℝ → ℕ → List ℝ → List ℝ) (cond : C) :
    ∀ (ts : List ℕ) (img : List ℝ),
      rollout_calls fd ss cond ts img = ts.map (fun t => PredCall.mk t cond) := by
  intro ts
  induction ts with
  | nil => intro img; rfl
  | cons t ts ih => intro img; simp [rollout_calls, rollout_aux] at ih ⊢; exact ih _

/-- Auxiliary: event counts inside the reverse-diffusion part of the trace. -/
theorem rollout_events_count (ts : List ℕ) :
    (rollout_events ts).count Event.predict = ts.length ∧
    (rollout_events ts).count Event.sched_step = ts.length ∧
    (rollout_events ts).count Event.cond_once = 0 := by
  induction ts with
  | nil => exact ⟨rfl, rfl, rfl⟩
  | cons t ts ih =>
    obtain ⟨h1, h2, h3⟩ := ih
    have hc : rollout_events (t :: ts) = Event.predict :: Event.sched_step :: rollout_events ts :=
      rfl
    refine ⟨?_, ?_, ?_⟩ <;> rw [hc] <;> simp [List.count_cons, h1, h2, h3]

/-- C2 counterexample: on a step with the default 20-step inference schedule
the loop body computes the reconstruction loss but the trace never reaches the
backward delegation, the global-step increment, the EMA update or the cadence
checks: the process exit of line 281 preempts them. -/
theorem C2_counterexample :
    Event.compute_loss ∈ step_body_events (List.range 20) ∧
    Event.exit_proc ∈ step_body_events (List.range 20) ∧
    Event.backward ∉ step_body_events (List.range 20) ∧
    Event.inc_global_step ∉ step_body_events (List.range 20) ∧
    Event.ema_update ∉ step_body_events (List.range 20) := by
  decide

/-- C2 (amended): on every pass through the loop body, after the
reconstruction loss is computed the orchestrator prints the loss and
terminates the process via exit; the backward delegation, the global-step
increment, EMATracker.step and the logging and checkpointing cadence checks
appear later in the source but are never reached, for any timestep schedule. -/
theorem C2_step_body_terminates (ts : List ℕ) :
    (step_body_events ts).getLast? = some Event.exit_proc ∧
    Event.compute_loss ∈ step_body_events ts ∧
    Event.backward ∉ step_body_events ts ∧
    Event.inc_global_step ∉ step_body_events ts ∧
    Event.ema_update ∉ step_body_events ts ∧
    Event.log_check ∉ step_body_events ts ∧
    Event.ckpt_check ∉ step_body_events ts := by
  refine ⟨?_, ?_, ?_, ?_, ?_, ?_, ?_⟩
  · show (_ ++ _ ++ (Event.compute_loss :: [Event.print_loss, Event.exit_proc])).getLast?
      = some Event.exit_proc
    rw [List.getLast?_append_cons]
    rfl
  · simp [step_body_events]
  all_goals
    intro h
    simp [step_body_events, rollout_events] at h

/-- C7: the rollout of lines 273-278 starts from a fresh noise tensor of the
same shape as the normalized latent, computes the conditioning exactly once
per batch (forward_parallel at line 274) and reuses it in every predictor
call, and runs the scheduler across the configured inference-step count, each
timestep making exactly one predictor call followed by one scheduler step. -/
theorem C7_rollout_structure {C : Type} (fd : List ℝ → ℕ → C → List ℝ)
    (ss : List ℝ → ℕ → List ℝ → List ℝ) (cond : C) (n : ℕ) (ts : List ℕ)
    (g : ℕ → ℝ) (target : List ℝ) (hn : ts.length = n) :
    (randn_like target g).length = target.length ∧
    rollout_calls fd ss cond ts (randn_like target g)
      = ts.map (fun t => PredCall.mk t cond) ∧
    (rollout_calls fd ss cond ts (randn_like target g)).length = n ∧
    (step_body_events ts).count Event.cond_once = 1 ∧
    (step_body_events ts).count Event.predict = n ∧
    (step_body_events ts).count Event.sched_step = n := by
  obtain ⟨hp, hss, hco⟩ := rollout_events_count ts
  refine ⟨by simp [randn_like], rollout_calls_eq fd ss cond ts _, ?_, ?_, ?_, ?_⟩
  · rw [rollout_calls_eq]
    simp [hn]
  · simp only [step_body_events, List.count_append, hco]
    decide
  · simp only [step_body_events, List.count_append, hp, hn]
    have h1 : List.count Event.predict [Event.encode, Event.sample, Event.observe_norm,
        Event.transform_latent, Event.init_noise, Event.cond_once] = 0 := by decide
    have h2 : List.count Event.predict
        [Event.compute_loss, Event.print_loss, Event.exit_proc] = 0 := by decide
    omega
  · simp only [step_body_events, List.count_append, hss, hn]
    have h1 : List.count Event.sched_step [Event.encode, Event.sample, Event.observe_norm,
        Event.transform_latent, Event.init_noise, Event.cond_once] = 0 := by decide
    have h2 : List.count Event.sched_step
        [Event.compute_loss, Event.print_loss, Event.exit_proc] = 0 := by decide
    omega

/-- Witness for C7 with the identity predictor and scheduler, conditioning 0,
the two-timestep schedule 1, 0 and a one-element latent. -/
theorem C7_rollout_structure_witness :
    (randn_like [(0 : ℝ)] (fun _ => 0)).length = [(0 : ℝ)].length ∧
    rollout_calls (fun img _ (_ : ℕ) => img) (fun _ _ img => img) 0 [1, 0]
        (randn_like [(0 : ℝ)] (fun _ => 0))
      = [1, 0].map (fun t => PredCall.mk t 0) ∧
    (rollout_calls (fun img _ (_ : ℕ) => img) (fun _ _ img => img) 0 [1, 0]
        (randn_like [(0 : ℝ)] (fun _ => 0))).length = 2 ∧
    (step_body_events [1, 0]).count Event.cond_once = 1 ∧
    (step_body_events [1, 0]).count Event.predict = 2 ∧
    (step_body_events [1, 0]).count Event.sched_step = 2 :=
  C7_rollout_structure (fun img _ _ => img) (fun _ _ img => img) 0 2 [1, 0]
    (fun _ => 0) [0] rfl

/- ## Checkpoint write ordering (lines 302-316)

save_checkpoint first calls accelerator.save_state on the checkpoint
directory; on the main process it then writes the side record other_state.pth
into the same directory; only after save_checkpoint returns is the latest
pointer file written. -/

/-- The writes issued by one pass through the checkpointing branch. -/
inductive CkptEvent where
  | save_state | save_other_state | write_latest
  deriving DecidableEq

/-- Lines 302-315 as the ordered write sequence of one process: the model and
optimizer state, then (on the main process) the side record, then the latest
pointer. -/
def checkpoint_events (is_main : Bool) : List CkptEvent :=
  [CkptEvent.save_state]
    ++ (if is_main then [CkptEvent.save_other_state] else [])
    ++ [CkptEvent.write_latest]

/-- Lines 306-311: the side record bundles the normalization factors, the
global step and, when EMA is on, the serialized EMA state. -/
noncomputable def make_other_state (scaling bias : ℝ) (gs : ℕ) (use_ema : Bool)
    (ema_sd : EMAStateDict) : OtherState :=
  { scaling_factor := scaling, bias_factor := bias, steps := gs,
    ema := if use_ema then some ema_sd else none }

/-- C8: the latest pointer is written strictly after every artifact of the
checkpoint directory: it is the last write of the routine, and any executed
prefix of the write sequence that already contains the latest-pointer write
contains all the artifact writes of that process. -/
theorem C8_latest_written_last (is_main : Bool) (k : ℕ)
    (h : CkptEvent.write_latest ∈ (checkpoint_events is_main).take k) :
    CkptEvent.save_state ∈ (checkpoint_events is_main).take k ∧
    (is_main = true → CkptEvent.save_other_state ∈ (checkpoint_events is_main).take k) ∧
    (checkpoint_events is_main).getLast? = some CkptEvent.write_latest := by
  cases is_main
  · match k with
    | 0 => simp at h
    | 1 => simp [checkpoint_events] at h
    | (k + 2) =>
      have ht : (checkpoint_events false).take (k + 2) = checkpoint_events false :=
        List.take_of_length_le (by simp [checkpoint_events])
      rw [ht]
      refine ⟨by decide, ?_, by decide⟩
      intro hh
      exact absurd hh (by decide)
  · match k with
    | 0 => simp at h
    | 1 => simp [checkpoint_events] at h
    | 2 => simp [checkpoint_events] at h
    | (k + 3) =>
      have ht : (checkpoint_events true).take (k + 3) = checkpoint_events true :=
        List.take_of_length_le (by simp [checkpoint_events])
      rw [ht]
      exact ⟨by decide, fun _ => by decide, by decide⟩

/-- Witness for C8 on the main process with the full routine executed. -/
theorem C8_latest_written_last_witness :
    CkptEvent.save_state ∈ (checkpoint_events true).take 3 ∧
    (true = true → CkptEvent.save_other_state ∈ (checkpoint_events true).take 3) ∧
    (checkpoint_events true).getLast? = some CkptEvent.write_latest :=
  C8_latest_written_last true 3 (by decide)

/- ## Python name resolution (module debug_hf)

Python resolves each referenced name at evaluation time against the local and
module bindings; a reference to a name bound nowhere raises NameError and, in
the absence of any try block (this module has none), terminates the run. The
module bindings are the imports of lines 1-31 and the module-level
definitions; the statements of main are modelled at statement granularity,
each carrying the names it binds and the names it references, in order. -/

/-- The names bound at module level: the imports of lines 1-31 and the
module-level definitions logger, parse_args and main. -/
def module_names : List String :=
  ["argparse", "functools", "logging", "math", "os", "timedelta", "datasets", "torch",
   "F", "dist", "Accelerator", "InitProcessGroupKwargs", "get_logger",
   "ProjectConfiguration", "set_seed", "load_file", "load_dataset", "transforms",
   "InterpolationMode", "ImageFolder", "diffusers", "compute_snr", "get_scheduler",
   "All_models", "DiT", "Transformer", "EMAModel", "center_crop_arr", "safe_blob_write",
   "DPMSolverMultistepScheduler", "wandb", "AutoencoderKL", "logger", "parse_args", "main"]

/-- The first referenced name, in evaluation order, that is not bound in the
environment: the name whose lookup raises NameError, when there is one. -/
def py_first_unbound (env refs : List String) : Option String :=
  refs.find? (fun n => !(env.contains n))

/-- The outcome of evaluating a piece of Python code: a value, or an escaping
NameError carrying the unbound name. -/
inductive PyResult (α : Type) where
  | ok (a : α)
  | name_error (n : String)
  deriving DecidableEq

/-- The function-local names of main that are bound by the time the logging
branch of lines 291-300 is reached (parameters and every assignment target on
the path to it); gnorm is assigned nowhere in the file. -/
def main_locals_at_logging : List String :=
  ["args", "logging_dir", "device", "vae", "input_size", "latent_size", "flatten_input",
   "model", "dtype", "ema_model", "noise_scheduler", "accelerator_project_config",
   "kwargs", "accelerator", "run", "augmentations", "dataset", "train_dataloader",
   "checkpoint_path", "other_state", "checkpoint", "total_batch_size", "max_train_steps",
   "global_step", "running_loss", "first_epoch", "scaling_factor", "bias_factor", "epoch",
   "step", "clean_images", "label", "vae_latent", "bsz", "h", "w", "image", "condition",
   "t", "model_output", "loss", "avg_loss"]

/-- The environment visible inside the logging branch: module bindings plus
the function locals. -/
def logging_env : List String := module_names ++ main_locals_at_logging

/-- The names referenced to build the logs mapping at line 294, in evaluation
order: avg_loss, global_step, gnorm, total_batch_size, epoch. -/
def logs_dict_refs : List String :=
  ["avg_loss", "global_step", "gnorm", "total_batch_size", "epoch"]

/-- Lines 291-300: the logging branch builds the logs mapping and emits it;
this module wraps it in no exception handler, so a NameError raised while
building the mapping escapes the training loop. -/
def logging_branch : PyResult Unit :=
  match py_first_unbound logging_env logs_dict_refs with
  | some n => PyResult.name_error n
  | none => PyResult.ok ()

/-- C9: the logging branch does not evaluate without raising, and nothing
swallows the failure: building the logs mapping of line 294 raises NameError
on the nowhere-assigned name gnorm, while every other referenced metric name
resolves; with no handler in the module the error aborts the run. -/
theorem C9_logging_branch_raises :
    logging_branch = PyResult.name_error "gnorm" ∧
    py_first_unbound logging_env
      ["avg_loss", "global_step", "total_batch_size", "epoch"] = none ∧
    logging_env.contains "gnorm" = false := by
  refine ⟨rfl, rfl, rfl⟩

/-- A statement of main, at statement granularity: an assignment carrying its
target names and the names its right-hand side references, a bare expression
statement carrying its references, or the training loop of lines 254-316. -/
inductive PyStmt where
  | assign (targets : List String) (refs : List String)
  | expr_stmt (refs : List String)
  | train_loop
  deriving DecidableEq

/-- Sequential execution with Python name resolution: each statement first
resolves its references against the environment, raising NameError at the
first unbound one; an assignment then extends the environment with its
targets. Returns the executed statements and the escaping NameError, if any. -/
def run_stmts (env : List String) : List PyStmt → List PyStmt × Option String
  | [] => ([], none)
  | PyStmt.expr_stmt refs :: rest =>
    match py_first_unbound env refs with
    | some n => ([], some n)
    | none =>
      let r := run_stmts env rest
      (PyStmt.expr_stmt refs :: r.1, r.2)
  | PyStmt.assign targets refs :: rest =>
    match py_first_unbound env refs with
    | some n => ([], some n)
    | none =>
      let r := run_stmts (env ++ targets) rest
      (PyStmt.assign targets refs :: r.1, r.2)
  | PyStmt.train_loop :: rest =>
    let r := run_stmts env rest
    (PyStmt.train_loop :: r.1, r.2)

/-- The body of main (lines 104-318) at statement granularity, conditional
branches flattened to the names they bind and reference. The fourth statement
is the VAE-loading call of line 107. -/
def main_body : List PyStmt :=
  [PyStmt.expr_stmt ["set_seed", "args"],
   PyStmt.assign ["logging_dir"] ["os", "args"],
   PyStmt.assign ["device"] ["torch"],
   PyStmt.assign ["vae", "input_size", "latent_size", "flatten_input"] ["load_vae", "args"],
   PyStmt.assign ["model"] ["All_models", "args", "input_size", "latent_size",
     "flatten_input"],
   PyStmt.assign ["dtype"] ["args", "torch"],
   PyStmt.assign ["ema_model"] ["args", "EMAModel", "model"],
   PyStmt.assign ["noise_scheduler"] ["DPMSolverMultistepScheduler", "args"],
   PyStmt.assign ["accelerator_project_config"] ["ProjectConfiguration", "args",
     "logging_dir"],
   PyStmt.assign ["kwargs"] ["InitProcessGroupKwargs", "timedelta"],
   PyStmt.assign ["accelerator"] ["Accelerator", "args", "accelerator_project_config",
     "kwargs"],
   PyStmt.expr_stmt ["logging"],
   PyStmt.expr_stmt ["logger", "accelerator"],
   PyStmt.expr_stmt ["accelerator", "datasets", "diffusers"],
   PyStmt.expr_stmt ["logger", "args"],
   PyStmt.expr_stmt ["accelerator", "args", "os", "wandb"],
   PyStmt.expr_stmt ["logger", "model"],
   PyStmt.assign ["augmentations"] ["transforms", "args", "center_crop_arr"],
   PyStmt.assign ["dataset"] ["args", "load_dataset", "ImageFolder", "augmentations"],
   PyStmt.assign ["train_dataloader"] ["torch", "dataset", "args"],
   PyStmt.assign ["checkpoint_path"] ["args", "os"],
   PyStmt.assign ["other_state", "scaling_factor", "bias_factor", "checkpoint"]
     ["checkpoint_path", "torch", "os", "args", "load_file", "model", "device", "dtype"],
   PyStmt.assign ["model", "train_dataloader"] ["accelerator", "model",
     "train_dataloader"],
   PyStmt.expr_stmt ["vae", "accelerator", "args", "ema_model"],
   PyStmt.assign ["run"] ["accelerator", "os"],
   PyStmt.assign ["total_batch_size"] ["args", "accelerator"],
   PyStmt.assign ["max_train_steps"] ["train_dataloader", "args"],
   PyStmt.expr_stmt ["logger", "dataset", "args", "total_batch_size", "max_train_steps"],
   PyStmt.assign ["global_step"] [],
   PyStmt.assign ["running_loss"] [],
   PyStmt.assign ["first_epoch"] [],
   PyStmt.assign ["scaling_factor"] [],
   PyStmt.assign ["bias_factor"] [],
   PyStmt.expr_stmt ["torch", "args"],
   PyStmt.train_loop,
   PyStmt.expr_stmt ["accelerator"]]

/-- Running main: the environment holds the module bindings and the parameter
args, whatever configuration parse_args produced. -/
def main_run : List PyStmt × Option String :=
  run_stmts (module_names ++ ["args"]) main_body

/-- C10: the name load_vae is bound neither at module level nor inside main,
so every invocation of main raises NameError at the VAE-loading statement of
line 107: exactly the three statements before it execute, and the training
loop (every training step, normalization and checkpoint write) is never
reached. -/
theorem C10_main_raises_name_error :
    (module_names ++ ["args"]).contains "load_vae" = false ∧
    main_run.2 = some "load_vae" ∧
    main_run.1.length = 3 ∧
    PyStmt.train_loop ∉ main_run.1 := by
  refine ⟨rfl, rfl, rfl, ?_⟩
  decide

end LatentLM
